import Mathlib

/-!
Verification of the Partnerfy covenant spending pipeline.

This file shallowly embeds the transaction-construction, threshold-signing
and finalization logic of the `partnerfy_app` Rust sources and proves (or
refutes) the behavioural claims made about it.

Conventions of the embedding:
* Amounts in minimal units (satoshis) are Rust `u64` values; they are
  modelled as `Nat`, and the one subtraction that can wrap
  (`value_sats - amount_sats - fee_sats` in `voucher.rs`) is modelled with
  an explicit `% 2^64` on the integer difference, which is the two's
  complement wrap-around behaviour of a release build (a debug build
  panics at the same inputs).
* `f64` amounts (`tx_builder.rs`) are modelled as exact rationals `ℚ`.
* External effects (the ledger-node RPC, the covenant toolchain, the file
  system, HTTP) are modelled as explicit function parameters or `Option`
  valued responses; the code under analysis is then a pure function of
  those responses.
-/

namespace Partnerfy

/-! ## Amounts and wrapping u64 arithmetic -/

/-- Width of Rust `u64`: values live in `[0, 2^64)`. -/
def U64_MOD : Nat := 2 ^ 64

/-- Two's complement wrap of an integer expression into `u64` range;
models what `value_sats - amount_sats - fee_sats` evaluates to on `u64`
in a release build when the mathematical difference is negative. -/
def wrapU64 (z : Int) : Nat := (z % (U64_MOD : Int)).toNat

theorem wrapU64_of_nonneg (z : Int) (h0 : 0 ≤ z) (h1 : z < (U64_MOD : Int)) :
    (wrapU64 z : Int) = z := by
  unfold wrapU64
  rw [Int.emod_eq_of_lt h0 h1]
  exact Int.toNat_of_nonneg h0

/-! ## Spend plans

A spend plan records the ordered address outputs handed to
`ElementsRPC::create_pset` together with the explicit fee passed as its
third argument (`elements_rpc.rs`, `create_pset`, which appends a
fee entry to the output array exactly when a fee is supplied). -/

/-- An output destination in the assembled PSET output list: either a
ledger address or the fee marker entry that `create_pset` appends for
`Some(fee)` (the `\x7b "fee": amount \x7d` object in `elements_rpc.rs`). -/
inductive Dest where
  | addr (a : String)
  | feeMarker
deriving DecidableEq, Repr

/-- A spend plan: the address outputs (destination, amount in sats) passed
to `create_pset` plus the explicit fee amount in sats. -/
structure SpendPlan where
  outputs : List (String × Nat)
  fee : Nat
deriving DecidableEq, Repr

/-- The full PSET output list that `create_pset` builds from a plan when a
fee is supplied: the address outputs followed by the appended fee entry
(`elements_rpc.rs` lines 293-307). -/
def psetOutputs (p : SpendPlan) : List (Dest × Nat) :=
  p.outputs.map (fun o => (Dest.addr o.1, o.2)) ++ [(Dest.feeMarker, p.fee)]

/-- Sum of the amounts of the address outputs of a plan. -/
def outputsSum (p : SpendPlan) : Nat :=
  (p.outputs.map (fun o => o.2)).sum

/-- Errors of the local spend-plan validation, one per early-return branch
of the two `create_spend_pset` handlers. -/
inductive PlanError where
  | amountExceedsValue
  | insufficientFunds
  | noChangeRoom
  | missingContractAddr
  | feeZero
  | feeTooLow
deriving DecidableEq, Repr

/-- The fee floor `MIN_FEE_SATS` (100 sats) from `voucher.rs` line 537 and
`p2ms.rs` line 399. -/
def MIN_FEE_SATS : Nat := 100

/-- Recursive-covenant spend-plan construction from
`Voucher::create_spend_pset` (`voucher.rs` lines 520-599), at the sats
level (the subsequent sats→BTC `f64` conversion is value-preserving for
amounts below `2^53` and is not modelled).

Guards in source order: `amount_sats > value_sats` rejection; the
computation `value_sats - amount_sats - fee_sats` on `u64` (modelled with
an explicit wrap; a debug build panics when it underflows); the dead
`change_sats < 0` check (`u64` is never negative); the `change_sats == 0`
rejection; the empty-contract-address rejection.  On success the outputs
handed to `create_pset` are payment to the destination and change to the
contract address, with the fixed minimum fee passed explicitly. -/
def voucherCreateSpendPlan (valueSats amountSats : Nat)
    (destination contractAddr : String) : Except PlanError SpendPlan :=
  if amountSats > valueSats then
    .error .amountExceedsValue
  else
    let feeSats := MIN_FEE_SATS
    let changeSats := wrapU64 ((valueSats : Int) - (amountSats : Int) - (feeSats : Int))
    if changeSats < 0 then
      .error .insufficientFunds
    else if changeSats = 0 then
      .error .noChangeRoom
    else if contractAddr.isEmpty then
      .error .missingContractAddr
    else
      .ok { outputs := [(destination, amountSats), (contractAddr, changeSats)],
            fee := feeSats }

/-- Simple-mode spend-plan construction from `P2MS::create_spend_pset`
(`p2ms.rs` lines 374-421), at the sats level.

Guards in source order: `amount_sats > value_sats` rejection; then
`fee_sats = value_sats - amount_sats` (cannot underflow past the guard);
`fee_sats == 0` rejection; `fee_sats < MIN_FEE_SATS` rejection.  On
success the single output handed to `create_pset` is the payment to the
destination, with the whole remainder passed as the explicit fee. -/
def p2msCreateSpendPlan (valueSats amountSats : Nat)
    (destination : String) : Except PlanError SpendPlan :=
  if amountSats > valueSats then
    .error .amountExceedsValue
  else
    let feeSats := valueSats - amountSats
    if feeSats = 0 then
      .error .feeZero
    else if feeSats < MIN_FEE_SATS then
      .error .feeTooLow
    else
      .ok { outputs := [(destination, amountSats)], fee := feeSats }

/-! ## The float-based redemption builder (`tx_builder.rs`) -/

/-- `TxOutput` from `models.rs`: an address together with an `f64` amount,
modelled with an exact rational amount. -/
structure TxOutput where
  address : String
  amount : ℚ
deriving DecidableEq, Repr

/-- `VoucherUTXO` from `models.rs` (the fields `build_redemption_tx`
reads). -/
structure VoucherUTXO where
  txid : String
  vout : Nat
  amount : ℚ
deriving DecidableEq, Repr

/-- `RawTransaction` from `models.rs` (the `hex` field is left to the RPC
layer and omitted). -/
structure RawTransaction where
  inputs : List (String × Nat)
  outputs : List TxOutput
deriving DecidableEq, Repr

/-- `TxBuilder::build_redemption_tx` (`tx_builder.rs` lines 15-48): change
is `voucher.amount - partner_amount` with no fee deducted anywhere;
negative change is rejected, otherwise the outputs are the payment to the
partner followed by the change back to the covenant address. -/
def buildRedemptionTx (voucher : VoucherUTXO) (partnerAddress : String)
    (partnerAmount : ℚ) (covenantAddress : String) :
    Except String RawTransaction :=
  let changeAmount := voucher.amount - partnerAmount
  if changeAmount < 0 then
    .error "Insufficient voucher amount"
  else
    .ok { inputs := [(voucher.txid, voucher.vout)],
          outputs := [ { address := partnerAddress, amount := partnerAmount },
                       { address := covenantAddress, amount := changeAmount } ] }

/-- `TxBuilder::calculate_change` (`tx_builder.rs` lines 105-108):
`(input_amount - total_output - fee).max(0.0)`, with `f64` modelled as
exact rationals. -/
def calculate_change (inputAmount : ℚ) (outputs : List TxOutput) (fee : ℚ) : ℚ :=
  let totalOutput : ℚ := (outputs.map (fun o => o.amount)).sum
  max (inputAmount - totalOutput - fee) 0

/-! ## Threshold signing (`sign_and_finalize` in `p2ms.rs` and `voucher.rs`)

The hal toolchain call `sighash_and_sign(pset, 0, cmr, privkey)` is made
with the PSET, input index and commitment root fixed for the whole
attempt, so it is modelled as a single function from the private key to
either a signature or a diagnostic string. -/

/-- The three per-slot signing results plus the accumulated per-slot error
messages (`signing_errors` in the source, pushed in slot order). -/
structure CollectedSigs where
  sig1 : Option String
  sig2 : Option String
  sig3 : Option String
  errs : List String
deriving DecidableEq, Repr

/-- One slot of the signing loop: skip an empty key, otherwise call the
signer and on failure record the formatted per-slot error
(`p2ms.rs` lines 521-564, `voucher.rs` lines 857-900). -/
def signSlot (signFn : String → Except String String) (label : String)
    (pk : String) : Option String × List String :=
  if pk.isEmpty then (none, [])
  else
    match signFn pk with
    | .ok s => (some s, [])
    | .error e => (none, ["Failed to sign with key " ++ label ++ ":\n" ++ e])

/-- The whole signing pass over the three key slots, in source order. -/
def collectSigs (signFn : String → Except String String)
    (pk1 pk2 pk3 : String) : CollectedSigs :=
  let r1 := signSlot signFn "1" pk1
  let r2 := signSlot signFn "2" pk2
  let r3 := signSlot signFn "3" pk3
  { sig1 := r1.1, sig2 := r2.1, sig3 := r3.1, errs := r1.2 ++ r2.2 ++ r3.2 }

/-- The count of non-empty signature slots
(`[&sig1, &sig2, &sig3].iter().filter(is_some).count()`). -/
def sigCount (c : CollectedSigs) : Nat :=
  ([c.sig1, c.sig2, c.sig3].filter (fun s => s.isSome)).length

/-- The witness-array entry for one slot: the present-signature marker
wrapping the signature hex, or the absent marker. -/
def slotEntry : Option String → String
  | some s => "Some(0x" ++ s ++ ")"
  | none => "None"

/-- Slot-array construction from `p2ms.rs` lines 641-658: start from
three absent markers and overwrite position `i` exactly when signature
`i` is present. -/
def p2msArrayElements (s1 s2 s3 : Option String) : List String :=
  let a := ["None", "None", "None"]
  let a := match s1 with
    | some s => a.set 0 ("Some(0x" ++ s ++ ")")
    | none => a
  let a := match s2 with
    | some s => a.set 1 ("Some(0x" ++ s ++ ")")
    | none => a
  match s3 with
  | some s => a.set 2 ("Some(0x" ++ s ++ ")")
  | none => a

/-- Slot-array construction from `voucher.rs` lines 959-989: an
exhaustive match on which of the three signatures are present, writing
each present signature at its own index. -/
def voucherArrayElements (s1 s2 s3 : Option String) : List String :=
  let a := ["None", "None", "None"]
  match s1, s2, s3 with
  | some x1, none, some x3 =>
      ((a.set 0 ("Some(0x" ++ x1 ++ ")")).set 2 ("Some(0x" ++ x3 ++ ")"))
  | some x1, some x2, none =>
      ((a.set 0 ("Some(0x" ++ x1 ++ ")")).set 1 ("Some(0x" ++ x2 ++ ")"))
  | none, some x2, some x3 =>
      ((a.set 1 ("Some(0x" ++ x2 ++ ")")).set 2 ("Some(0x" ++ x3 ++ ")"))
  | some x1, some x2, some x3 =>
      (((a.set 0 ("Some(0x" ++ x1 ++ ")")).set 1 ("Some(0x" ++ x2 ++ ")")).set 2
        ("Some(0x" ++ x3 ++ ")"))
  | some x1, none, none => a.set 0 ("Some(0x" ++ x1 ++ ")")
  | none, some x2, none => a.set 1 ("Some(0x" ++ x2 ++ ")")
  | none, none, some x3 => a.set 2 ("Some(0x" ++ x3 ++ ")")
  | none, none, none => a

/-- The failure message emitted when the threshold is missed and no
per-slot error was recorded (`p2ms.rs` line 570, `voucher.rs` line 905). -/
def genericNoSigsMsg : String :=
  "No signatures generated. Please provide at least 2 private keys."

/-- The failure message emitted when the threshold is missed and per-slot
errors were recorded (`p2ms.rs` lines 572-574, `voucher.rs` lines
907-909): it reports the count obtained, the threshold, and the joined
per-slot errors. -/
def insufficientMsg (count : Nat) (errs : List String) : String :=
  "Only " ++ toString count ++
    " signature(s) generated (need 2 for 2-of-3 multisig).\n\nErrors:\n" ++
    String.intercalate "\n\n" errs

/-- The threshold gate of `sign_and_finalize` (`p2ms.rs` lines 566-585,
`voucher.rs` lines 902-920): count the non-empty slots and abort when the
count is below 2, otherwise proceed with the collected signatures (a
warning is shown when some slots failed but the threshold was met). -/
def signGate (signFn : String → Except String String)
    (pk1 pk2 pk3 : String) : Except String CollectedSigs :=
  let c := collectSigs signFn pk1 pk2 pk3
  if sigCount c < 2 then
    .error (if c.errs.isEmpty then genericNoSigsMsg
            else insufficientMsg (sigCount c) c.errs)
  else
    .ok c

/-! ## Witness document regeneration -/

/-- The abstract content of the witness JSON document: the `MAYBE_SIGS`
value string and its type annotation. -/
structure WitnessJson where
  value : String
  type : String
deriving DecidableEq, Repr

/-- The hard-coded witness template both handlers reset to
(`p2ms.rs` lines 593-598, `voucher.rs` lines 924-929). -/
def witnessTemplate : WitnessJson :=
  { value := "[None, None, None]", type := "[Option<Signature>; 3]" }

/-- Loading the pre-existing witness file (`p2ms.rs` lines 600-610,
`voucher.rs` lines 931-939): `file` is `none` when the file is missing or
unreadable and `some content` otherwise; `parsesAsJson` abstracts the
serde parse check.  Every branch — readable non-empty valid JSON,
readable non-empty invalid JSON, empty, missing — resets to the
template. -/
def loadWitnessJson (file : Option String) (parsesAsJson : String → Bool) :
    WitnessJson :=
  match file with
  | some content =>
    if content.trim.isEmpty then witnessTemplate
    else if parsesAsJson content then witnessTemplate
    else witnessTemplate
  | none => witnessTemplate

/-- Witness-document production in `p2ms.rs` lines 591-685: load (and
reset) the witness JSON, rebuild the slot array from the current
signatures only, and overwrite the `value` field in place. -/
def p2msBuildWitnessDoc (file : Option String) (parsesAsJson : String → Bool)
    (s1 s2 s3 : Option String) : WitnessJson :=
  let wj := loadWitnessJson file parsesAsJson
  { wj with
    value := "[" ++ String.intercalate ", " (p2msArrayElements s1 s2 s3) ++ "]" }

/-- Witness-document production in `voucher.rs` lines 922-1022: load (and
reset) the witness JSON, rebuild the slot array from the current
signatures only, and emit a fresh object with the new `value` and the
template's `type`. -/
def voucherBuildWitnessDoc (file : Option String) (parsesAsJson : String → Bool)
    (s1 s2 s3 : Option String) : WitnessJson :=
  let wj := loadWitnessJson file parsesAsJson
  { value := "[" ++ String.intercalate ", " (voucherArrayElements s1 s2 s3) ++ "]",
    type := wj.type }

/-! ## Claims C1-C4: amount arithmetic of the spend-plan builders -/

/-- Claim C1, counterexample: the recursive-covenant builder accepts the
input (value 100 sats, payment 50 sats) — payment does not exceed value
and the wrapped change is nonzero — yet the sum of the plan outputs plus
the fee is `2^64 + 100`, not the UTXO value 100, because the `u64`
subtraction `100 - 50 - 100` wrapped around. -/
theorem value_conservation_cex :
    voucherCreateSpendPlan 100 50 "d" "c" =
      .ok { outputs := [("d", 50), ("c", 18446744073709551566)], fee := 100 } ∧
    outputsSum { outputs := [("d", 50), ("c", 18446744073709551566)], fee := 100 }
      + 100 ≠ 100 := by
  exact ⟨rfl, by decide⟩

/-- Claim C1 (amended): for every plan the simple-mode builder accepts,
payment plus fee equals the UTXO value exactly; for every plan the
recursive-covenant builder accepts, if additionally the `u64` subtraction
does not underflow (payment + fee floor ≤ value, value in `u64` range),
payment plus change plus fee equals the UTXO value exactly. -/
theorem value_conservation (valueSats amountSats : Nat)
    (destination contractAddr : String) (p : SpendPlan) :
    (p2msCreateSpendPlan valueSats amountSats destination = .ok p →
      outputsSum p + p.fee = valueSats) ∧
    (voucherCreateSpendPlan valueSats amountSats destination contractAddr = .ok p →
      valueSats < U64_MOD →
      amountSats + MIN_FEE_SATS ≤ valueSats →
      outputsSum p + p.fee = valueSats) := by
  constructor
  · intro hok
    unfold p2msCreateSpendPlan at hok
    split at hok
    · exact absurd hok (by simp)
    · rename_i hgt
      simp only [] at hok
      split at hok
      · exact absurd hok (by simp)
      · split at hok
        · exact absurd hok (by simp)
        · simp only [Except.ok.injEq] at hok
          subst hok
          simp only [outputsSum, List.map_cons, List.map_nil, List.sum_cons,
            List.sum_nil, Nat.add_zero]
          omega
  · intro hok hv hle
    unfold voucherCreateSpendPlan at hok
    split at hok
    · exact absurd hok (by simp)
    · rename_i hgt
      simp only [] at hok
      split at hok
      · exact absurd hok (by simp)
      · split at hok
        · exact absurd hok (by simp)
        · split at hok
          · exact absurd hok (by simp)
          · simp only [Except.ok.injEq] at hok
            subst hok
            simp only [outputsSum, List.map_cons, List.map_nil, List.sum_cons,
              List.sum_nil, Nat.add_zero]
            have hwrap : (wrapU64 ((valueSats : Int) - amountSats - MIN_FEE_SATS) : Int)
                = (valueSats : Int) - amountSats - MIN_FEE_SATS := by
              apply wrapU64_of_nonneg
              · omega
              · omega
            omega

/-- Claim C1, witness: at UTXO value 100000 sats and payment 40000 sats,
the simple plan conserves value (40000 + 60000 = 100000) and the
recursive plan conserves value (40000 + 59900 + 100 = 100000). -/
theorem value_conservation_witness :
    outputsSum { outputs := [("d", 40000)], fee := 60000 } + 60000 = 100000 ∧
    outputsSum { outputs := [("d", 40000), ("c", 59900)], fee := 100 } + 100 = 100000 := by
  constructor
  · exact (value_conservation 100000 40000 "d" "c"
      { outputs := [("d", 40000)], fee := 60000 }).1 rfl
  · exact (value_conservation 100000 40000 "d" "c"
      { outputs := [("d", 40000), ("c", 59900)], fee := 100 }).2 rfl (by norm_num [U64_MOD])
      (by norm_num [MIN_FEE_SATS])

/-- Claim C2, counterexample: the recursive-covenant builder accepts the
input (value 200 sats, payment 150 sats) but the change it books is the
wrapped value `2^64 - 50`, which does not satisfy the claimed equation
`change = value - payment - fee_floor` (that difference is `-50`). -/
theorem recursive_plan_shape_cex :
    voucherCreateSpendPlan 200 150 "d" "c" =
      .ok { outputs := [("d", 150), ("c", 18446744073709551566)], fee := 100 } ∧
    (18446744073709551566 : Int) ≠ (200 : Int) - 150 - 100 := by
  exact ⟨rfl, by decide⟩

/-- Claim C2 (amended): every plan the recursive-covenant builder accepts
has exactly 3 PSET output entries in order (destination payment, covenant
change, fee marker), the fee is fixed at the 100-sat floor, and output 1
goes to the contract address; the change equals
`value - payment - fee floor` whenever that subtraction does not
underflow (payment + fee floor ≤ value, value in `u64` range). -/
theorem recursive_plan_shape (valueSats amountSats : Nat)
    (destination contractAddr : String) (p : SpendPlan)
    (hok : voucherCreateSpendPlan valueSats amountSats destination contractAddr = .ok p) :
    p.fee = MIN_FEE_SATS ∧
    (psetOutputs p).length = 3 ∧
    psetOutputs p =
      [(Dest.addr destination, amountSats),
       (Dest.addr contractAddr, wrapU64 ((valueSats : Int) - amountSats - MIN_FEE_SATS)),
       (Dest.feeMarker, MIN_FEE_SATS)] ∧
    (psetOutputs p)[1]?.map (fun o => o.1) = some (Dest.addr contractAddr) ∧
    (valueSats < U64_MOD → amountSats + MIN_FEE_SATS ≤ valueSats →
      wrapU64 ((valueSats : Int) - amountSats - MIN_FEE_SATS)
        = valueSats - amountSats - MIN_FEE_SATS) := by
  unfold voucherCreateSpendPlan at hok
  split at hok
  · exact absurd hok (by simp)
  · rename_i hgt
    simp only [] at hok
    split at hok
    · exact absurd hok (by simp)
    · split at hok
      · exact absurd hok (by simp)
      · split at hok
        · exact absurd hok (by simp)
        · simp only [Except.ok.injEq] at hok
          subst hok
          refine ⟨rfl, rfl, rfl, rfl, ?_⟩
          intro hv hle
          have hwrap : (wrapU64 ((valueSats : Int) - amountSats - MIN_FEE_SATS) : Int)
              = (valueSats : Int) - amountSats - MIN_FEE_SATS := by
            apply wrapU64_of_nonneg
            · omega
            · omega
          omega

/-- Claim C2, witness: at value 100000 sats and payment 40000 sats the
accepted recursive plan is (destination 40000, covenant 59900, fee 100),
covenant change at output index 1, change = 100000 - 40000 - 100. -/
theorem recursive_plan_shape_witness :
    ({ outputs := [("d", 40000), ("c", 59900)], fee := 100 } : SpendPlan).fee
        = MIN_FEE_SATS ∧
    (psetOutputs { outputs := [("d", 40000), ("c", 59900)], fee := 100 }).length = 3 ∧
    (psetOutputs { outputs := [("d", 40000), ("c", 59900)], fee := 100 })[1]?.map
        (fun o => o.1) = some (Dest.addr "c") := by
  have h := recursive_plan_shape 100000 40000 "d" "c"
    { outputs := [("d", 40000), ("c", 59900)], fee := 100 } rfl
  exact ⟨h.1, h.2.1, h.2.2.2.1⟩

/-- Claim C3, counterexample: in the simple mode the plan accepted for
value 100000 sats and payment 40000 sats has a single address output
(no covenant change output at all) and its fee is the whole remainder
60000 sats, not a fixed minimal 100; and the redemption-tx helper books
change 60000 = value - payment, not value - payment - fee. -/
theorem simple_plan_shape_cex :
    p2msCreateSpendPlan 100000 40000 "d" =
      .ok { outputs := [("d", 40000)], fee := 60000 } ∧
    ({ outputs := [("d", 40000)], fee := 60000 } : SpendPlan).outputs.length ≠ 2 ∧
    (60000 : Nat) ≠ 100 ∧
    buildRedemptionTx { txid := "t", vout := 0, amount := 100000 } "p" 40000 "c" =
      .ok { inputs := [("t", 0)],
            outputs := [ { address := "p", amount := 40000 },
                         { address := "c", amount := 60000 } ] } ∧
    (60000 : ℚ) ≠ 100000 - 40000 - 100 := by
  refine ⟨rfl, by decide, by decide, ?_, by norm_num⟩
  norm_num [buildRedemptionTx]

/-- Claim C3 (amended): every plan the simple-mode spend path accepts is
exactly the single output (destination, payment) with the entire
remainder `value - payment` as the explicit fee, which is at least the
100-sat floor; the separate redemption-tx helper produces exactly
(destination, payment) followed by (covenant address, change) with
`change = value - payment` and no fee deducted. -/
theorem simple_plan_shape (valueSats amountSats : Nat) (destination : String)
    (p : SpendPlan) (voucher : VoucherUTXO)
    (partnerAddress : String) (partnerAmount : ℚ) (covenantAddress : String)
    (tx : RawTransaction) :
    (p2msCreateSpendPlan valueSats amountSats destination = .ok p →
      p.outputs = [(destination, amountSats)] ∧
      p.fee = valueSats - amountSats ∧
      MIN_FEE_SATS ≤ p.fee) ∧
    (buildRedemptionTx voucher partnerAddress partnerAmount covenantAddress = .ok tx →
      tx.outputs = [ { address := partnerAddress, amount := partnerAmount },
                     { address := covenantAddress,
                       amount := voucher.amount - partnerAmount } ]) := by
  constructor
  · intro hok
    unfold p2msCreateSpendPlan at hok
    split at hok
    · exact absurd hok (by simp)
    · simp only [] at hok
      split at hok
      · exact absurd hok (by simp)
      · split at hok
        · exact absurd hok (by simp)
        · rename_i hzero hlow
          simp only [Except.ok.injEq] at hok
          subst hok
          refine ⟨rfl, rfl, ?_⟩
          show MIN_FEE_SATS ≤ valueSats - amountSats
          omega
  · intro hok
    unfold buildRedemptionTx at hok
    simp only [] at hok
    split at hok
    · exact absurd hok (by simp)
    · simp only [Except.ok.injEq] at hok
      subst hok
      rfl

/-- Claim C3, witness: at value 100000 sats and payment 40000 sats the
simple plan is the single output (destination, 40000) with fee 60000; the
redemption helper for a 100000 voucher paying 40000 books change 60000. -/
theorem simple_plan_shape_witness :
    ({ outputs := [("d", 40000)], fee := 60000 } : SpendPlan).outputs
        = [("d", 40000)] ∧
    ({ inputs := [("t", 0)],
       outputs := [ { address := "p", amount := 40000 },
                    { address := "c", amount := 60000 } ] } : RawTransaction).outputs
      = [ { address := "p", amount := (40000 : ℚ) },
          { address := "c", amount := (100000 : ℚ) - 40000 } ] := by
  have h := simple_plan_shape 100000 40000 "d"
    { outputs := [("d", 40000)], fee := 60000 }
    { txid := "t", vout := 0, amount := 100000 } "p" 40000 "c"
    { inputs := [("t", 0)],
      outputs := [ { address := "p", amount := 40000 },
                   { address := "c", amount := 60000 } ] }
  refine ⟨(h.1 rfl).1, h.2 ?_⟩
  norm_num [buildRedemptionTx]

/-- Claim C4: at UTXO value 100 sats, payment 100 sats and fee floor 100
sats the recursive-covenant builder does not return the insufficient
funds error the spec mandates — the payment-exceeds-value guard passes
(100 is not greater than 100), the `u64` subtraction `0 - 100` wraps (a
debug build panics here), the dead `change < 0` check cannot fire on an
unsigned integer, and a plan with change `2^64 - 100` is accepted.  The
simple-mode path rejects the same input with its fee-is-zero error. -/
theorem insufficient_funds_underflow :
    voucherCreateSpendPlan 100 100 "dest" "addr" =
      .ok { outputs := [("dest", 100), ("addr", 18446744073709551516)], fee := 100 } ∧
    p2msCreateSpendPlan 100 100 "dest" = .error .feeZero := by
  exact ⟨rfl, rfl⟩

/-! ## Claims C5, C6, C9: signing session and witness document -/

/-- The two textually different slot-array constructions (if-chain in
`p2ms.rs`, exhaustive match in `voucher.rs`) agree. -/
theorem voucher_eq_p2ms_elements (s1 s2 s3 : Option String) :
    voucherArrayElements s1 s2 s3 = p2msArrayElements s1 s2 s3 := by
  cases s1 <;> cases s2 <;> cases s3 <;> rfl

/-- The slot array is exactly the three per-slot entries in slot order. -/
theorem p2ms_elements_eq (s1 s2 s3 : Option String) :
    p2msArrayElements s1 s2 s3 = [slotEntry s1, slotEntry s2, slotEntry s3] := by
  cases s1 <;> cases s2 <;> cases s3 <;> rfl

/-- Claim C5: the signature collected for key slot `i` is exactly the
signer's output for private key `i` (and absent when that key slot is
empty), the slot array places entry `i` at position `i` in fixed slot
order for both handler variants, and in particular supplying only keys 1
and 2 (slots 2 and 3 of the form) yields the unshifted array
[absent, present, present]. -/
theorem signature_slot_placement (signFn : String → Except String String)
    (pk1 pk2 pk3 : String) :
    (∀ s1 s2 s3 : Option String,
      voucherArrayElements s1 s2 s3 = p2msArrayElements s1 s2 s3 ∧
      p2msArrayElements s1 s2 s3 = [slotEntry s1, slotEntry s2, slotEntry s3]) ∧
    (collectSigs signFn pk1 pk2 pk3).sig1
        = (if pk1.isEmpty then none else (signFn pk1).toOption) ∧
    (collectSigs signFn pk1 pk2 pk3).sig2
        = (if pk2.isEmpty then none else (signFn pk2).toOption) ∧
    (collectSigs signFn pk1 pk2 pk3).sig3
        = (if pk3.isEmpty then none else (signFn pk3).toOption) ∧
    p2msArrayElements none (some "s2") (some "s3")
        = ["None", "Some(0xs2)", "Some(0xs3)"] := by
  refine ⟨fun s1 s2 s3 =>
      ⟨voucher_eq_p2ms_elements s1 s2 s3, p2ms_elements_eq s1 s2 s3⟩,
    ?_, ?_, ?_, rfl⟩
  · show (signSlot signFn "1" pk1).1 = _
    unfold signSlot
    by_cases h : pk1.isEmpty
    · simp [h]
    · simp only [h, Bool.false_eq_true, if_false, if_neg]
      cases hf : signFn pk1 <;> simp [Except.toOption]
  · show (signSlot signFn "2" pk2).1 = _
    unfold signSlot
    by_cases h : pk2.isEmpty
    · simp [h]
    · simp only [h, Bool.false_eq_true, if_false, if_neg]
      cases hf : signFn pk2 <;> simp [Except.toOption]
  · show (signSlot signFn "3" pk3).1 = _
    unfold signSlot
    by_cases h : pk3.isEmpty
    · simp [h]
    · simp only [h, Bool.false_eq_true, if_false, if_neg]
      cases hf : signFn pk3 <;> simp [Except.toOption]

/-- Claim C6, counterexample: with a single supplied key whose signing
succeeds, the gate fails (1 < 2) but with the generic message that
reports neither the count obtained (one signature was generated, the
message says none were) nor embeds any structure — it differs from the
count-reporting message shape the claim mandates. -/
theorem threshold_gate_cex :
    signGate (fun _ => .ok "s") "k" "" "" = .error genericNoSigsMsg ∧
    sigCount (collectSigs (fun _ => .ok "s") "k" "" "") = 1 ∧
    genericNoSigsMsg ≠ insufficientMsg 1 [] := by
  exact ⟨rfl, rfl, by decide⟩

/-- Claim C6 (amended): the gate fails exactly when fewer than 2 slots
carry a signature; per-slot failures do not abort the other slots — with
the threshold met the session proceeds with the collected signatures and
recorded warnings; on failure, the count and threshold are reported and
the per-slot errors embedded only when at least one per-slot error was
recorded, otherwise a generic message without the count is emitted. -/
theorem threshold_gate (signFn : String → Except String String)
    (pk1 pk2 pk3 : String) (c : CollectedSigs)
    (hc : c = collectSigs signFn pk1 pk2 pk3) :
    (2 ≤ sigCount c → signGate signFn pk1 pk2 pk3 = .ok c) ∧
    (sigCount c < 2 → c.errs ≠ [] →
      signGate signFn pk1 pk2 pk3 = .error (insufficientMsg (sigCount c) c.errs)) ∧
    (sigCount c < 2 → c.errs = [] →
      signGate signFn pk1 pk2 pk3 = .error genericNoSigsMsg) := by
  subst hc
  unfold signGate
  simp only []
  refine ⟨?_, ?_, ?_⟩
  · intro h2
    rw [if_neg (by omega)]
  · intro hlt hne
    rw [if_pos hlt, if_neg (by simp [List.isEmpty_iff, hne])]
  · intro hlt heq
    rw [if_pos hlt, if_pos (by simp [List.isEmpty_iff, heq])]

/-- The C6 scenario signer: key slot 2's signing fails, the others
succeed. -/
def scenarioSignFn : String → Except String String :=
  fun k => if k = "k2" then .error "boom" else .ok ("S" ++ k)

/-- Claim C6, witness: with all 3 keys available and slot 2's signing
failing, two signatures are collected (slot 2 absent, its error
recorded) and the gate proceeds. -/
theorem threshold_gate_witness :
    collectSigs scenarioSignFn "k1" "k2" "k3"
      = { sig1 := some "Sk1", sig2 := none, sig3 := some "Sk3",
          errs := ["Failed to sign with key 2:\nboom"] } ∧
    signGate scenarioSignFn "k1" "k2" "k3"
      = .ok (collectSigs scenarioSignFn "k1" "k2" "k3") := by
  refine ⟨rfl, ?_⟩
  exact (threshold_gate scenarioSignFn "k1" "k2" "k3" _ rfl).1 (by decide)

/-- Every load of the pre-existing witness file resets to the hard-coded
template, whatever the file's state. -/
theorem loadWitnessJson_eq_template (file : Option String)
    (parsesAsJson : String → Bool) :
    loadWitnessJson file parsesAsJson = witnessTemplate := by
  unfold loadWitnessJson
  cases file with
  | none => rfl
  | some c =>
    by_cases h : c.trim.isEmpty
    · simp [h]
    · by_cases h2 : parsesAsJson c <;> simp [h, h2]

/-- Claim C9: the witness document is a function of the current
signatures alone — two runs with the same signatures but any two
pre-existing witness-file states (missing, empty, invalid JSON, valid
JSON with stale signatures) produce identical documents, in both handler
variants, which moreover agree with each other; the document is the
3-slot array rendered from the current signatures with the template's
type annotation. -/
theorem witness_doc_regenerated (f g : Option String) (pf pg : String → Bool)
    (s1 s2 s3 : Option String) :
    p2msBuildWitnessDoc f pf s1 s2 s3 = p2msBuildWitnessDoc g pg s1 s2 s3 ∧
    voucherBuildWitnessDoc f pf s1 s2 s3 = voucherBuildWitnessDoc g pg s1 s2 s3 ∧
    voucherBuildWitnessDoc f pf s1 s2 s3 = p2msBuildWitnessDoc f pf s1 s2 s3 ∧
    (p2msBuildWitnessDoc f pf s1 s2 s3).value
      = "[" ++ String.intercalate ", " [slotEntry s1, slotEntry s2, slotEntry s3]
          ++ "]" ∧
    (p2msBuildWitnessDoc f pf s1 s2 s3).type = witnessTemplate.type := by
  unfold p2msBuildWitnessDoc voucherBuildWitnessDoc
  simp only [loadWitnessJson_eq_template, voucher_eq_p2ms_elements,
    p2ms_elements_eq]
  exact ⟨trivial, trivial, trivial, trivial, trivial⟩

/-! ## Claim C7: the UTXO resolver

The polling loop of `create_spend_pset` (`p2ms.rs` lines 284-347,
`voucher.rs` lines 425-484).  `poll i` models the outcome of the `i`-th
`get_txout` call: `none` for an RPC error or a null response, `some`
fields otherwise.  `fallback` models the Blockstream indexer query keyed
by txid: `none` when the HTTP request or JSON parse fails, otherwise the
extracted (script, asset, value) fields. -/

/-- The script/asset/value triple extracted from a UTXO lookup
response. -/
structure UtxoFields where
  script : String
  asset : String
  valueSats : Nat
deriving DecidableEq, Repr

/-- `MAX_ATTEMPTS` (`p2ms.rs` line 287, `voucher.rs` line 426). -/
def MAX_ATTEMPTS : Nat := 20

/-- The fixed sleep between polls, in seconds (`Duration::from_secs(5)`). -/
def POLL_WAIT_SECS : Nat := 5

/-- Result of the polling loop: the found response if any, the final
value of the `attempts` counter, and the list of sleep durations
performed. -/
structure PollState where
  found : Option UtxoFields
  attemptsCtr : Nat
  sleeps : List Nat
deriving DecidableEq, Repr

/-- The `while attempts < MAX_ATTEMPTS` loop, with `remaining` the number
of iterations the guard still allows (`MAX_ATTEMPTS - attempts`): poll,
break on a usable response, otherwise increment the counter and sleep
5 seconds unless the bound was just reached. -/
def pollLoopAux (poll : Nat → Option UtxoFields) :
    Nat → Nat → List Nat → PollState
  | 0, attempts, sleeps => { found := none, attemptsCtr := attempts, sleeps := sleeps }
  | remaining + 1, attempts, sleeps =>
    match poll attempts with
    | some d => { found := some d, attemptsCtr := attempts, sleeps := sleeps }
    | none =>
      if attempts + 1 < MAX_ATTEMPTS then
        pollLoopAux poll remaining (attempts + 1) (sleeps ++ [POLL_WAIT_SECS])
      else
        pollLoopAux poll remaining (attempts + 1) sleeps

/-- The polling loop as entered from the handler: counter 0, no sleeps
yet. -/
def pollLoop (poll : Nat → Option UtxoFields) : PollState :=
  pollLoopAux poll MAX_ATTEMPTS 0 []

/-- Resolver errors: the fallback fetch/parse failure
("Failed to fetch/parse Blockstream API") and the field-validation
failure ("Failed to extract UTXO data"). -/
inductive ResolveError where
  | fetchFailed
  | extractFailed
deriving DecidableEq, Repr

/-- Which path produced the resolved UTXO. -/
inductive ResolvedVia where
  | node
  | fallbackIndexer
deriving DecidableEq, Repr

/-- Full resolver outcome, keeping the loop observables. -/
structure ResolveResult where
  outcome : Except ResolveError (UtxoFields × ResolvedVia)
  attemptsCtr : Nat
  sleeps : List Nat
  fallbackUsed : Bool
deriving Repr

/-- The field validation applied to either path's response
(`p2ms.rs` lines 360-364, `voucher.rs` lines 513-517): empty script,
empty asset or zero value is rejected. -/
def validateFields (u : UtxoFields) : Except ResolveError UtxoFields :=
  if u.script.isEmpty || u.asset.isEmpty || u.valueSats = 0 then
    .error .extractFailed
  else
    .ok u

/-- The resolver: poll the node up to the bound; on exhaustion consult
the fallback indexer exactly once; validate whichever response was
obtained. -/
def resolveUtxo (poll : Nat → Option UtxoFields)
    (fallback : Option UtxoFields) : ResolveResult :=
  let pr := pollLoop poll
  match pr.found with
  | some d =>
    match validateFields d with
    | .ok u =>
        { outcome := .ok (u, .node), attemptsCtr := pr.attemptsCtr,
          sleeps := pr.sleeps, fallbackUsed := false }
    | .error e =>
        { outcome := .error e, attemptsCtr := pr.attemptsCtr,
          sleeps := pr.sleeps, fallbackUsed := false }
  | none =>
    match fallback with
    | none =>
        { outcome := .error .fetchFailed, attemptsCtr := pr.attemptsCtr,
          sleeps := pr.sleeps, fallbackUsed := true }
    | some d =>
      match validateFields d with
      | .ok u =>
          { outcome := .ok (u, .fallbackIndexer), attemptsCtr := pr.attemptsCtr,
            sleeps := pr.sleeps, fallbackUsed := true }
      | .error e =>
          { outcome := .error e, attemptsCtr := pr.attemptsCtr,
            sleeps := pr.sleeps, fallbackUsed := true }

/-- Unfolding equation of the loop at a successful poll. -/
theorem pollLoopAux_succ_some (poll : Nat → Option UtxoFields)
    (n a : Nat) (s : List Nat) (d : UtxoFields) (hp : poll a = some d) :
    pollLoopAux poll (n + 1) a s
      = { found := some d, attemptsCtr := a, sleeps := s } := by
  show (match poll a with
    | some d => ({ found := some d, attemptsCtr := a, sleeps := s } : PollState)
    | none =>
      if a + 1 < MAX_ATTEMPTS then
        pollLoopAux poll n (a + 1) (s ++ [POLL_WAIT_SECS])
      else
        pollLoopAux poll n (a + 1) s) = _
  rw [hp]

/-- Unfolding equation of the loop at a failed poll. -/
theorem pollLoopAux_succ_none (poll : Nat → Option UtxoFields)
    (n a : Nat) (s : List Nat) (hp : poll a = none) :
    pollLoopAux poll (n + 1) a s
      = if a + 1 < MAX_ATTEMPTS then
          pollLoopAux poll n (a + 1) (s ++ [POLL_WAIT_SECS])
        else
          pollLoopAux poll n (a + 1) s := by
  show (match poll a with
    | some d => ({ found := some d, attemptsCtr := a, sleeps := s } : PollState)
    | none =>
      if a + 1 < MAX_ATTEMPTS then
        pollLoopAux poll n (a + 1) (s ++ [POLL_WAIT_SECS])
      else
        pollLoopAux poll n (a + 1) s) = _
  rw [hp]

/-- The loop finds nothing exactly when every poll in its window comes
back unusable. -/
theorem pollLoopAux_found_none_iff (poll : Nat → Option UtxoFields) :
    ∀ (r a : Nat) (s : List Nat),
      (pollLoopAux poll r a s).found = none ↔
        (∀ i, a ≤ i → i < a + r → poll i = none) := by
  intro r
  induction r with
  | zero =>
    intro a s
    constructor
    · intro _ i h1 h2
      omega
    · intro _
      rfl
  | succ n ih =>
    intro a s
    cases hp : poll a with
    | some d =>
      rw [pollLoopAux_succ_some poll n a s d hp]
      constructor
      · intro h
        exact absurd h (by simp)
      · intro h
        have := h a (Nat.le_refl a) (by omega)
        rw [hp] at this
        exact absurd this (by simp)
    | none =>
      have step : ∀ s' : List Nat,
          (pollLoopAux poll n (a + 1) s').found = none ↔
            (∀ i, a ≤ i → i < a + (n + 1) → poll i = none) := by
        intro s'
        rw [ih (a + 1) s']
        constructor
        · intro h i h1 h2
          rcases Nat.eq_or_lt_of_le h1 with heq | hgt
          · rw [← heq]
            exact hp
          · exact h i hgt (by omega)
        · intro h i h1 h2
          exact h i (by omega) (by omega)
      rw [pollLoopAux_succ_none poll n a s hp]
      split
      · exact step _
      · exact step _

/-- Every sleep the loop performs is the fixed 5-second wait. -/
theorem pollLoopAux_sleeps (poll : Nat → Option UtxoFields) :
    ∀ (r a : Nat) (s : List Nat) (x : Nat),
      x ∈ (pollLoopAux poll r a s).sleeps → x ∈ s ∨ x = POLL_WAIT_SECS := by
  intro r
  induction r with
  | zero =>
    intro a s x h
    exact Or.inl h
  | succ n ih =>
    intro a s x h
    cases hp : poll a with
    | some d =>
      rw [pollLoopAux_succ_some poll n a s d hp] at h
      exact Or.inl h
    | none =>
      rw [pollLoopAux_succ_none poll n a s hp] at h
      split at h
      · rcases ih (a + 1) (s ++ [POLL_WAIT_SECS]) x h with hmem | heq
        · rcases List.mem_append.mp hmem with hs | h5
          · exact Or.inl hs
          · exact Or.inr (List.mem_singleton.mp h5)
        · exact Or.inr heq
      · exact ih (a + 1) s x h

/-- If the loop exhausts its window, the final counter value is the
window's end. -/
theorem pollLoopAux_exhaust_ctr (poll : Nat → Option UtxoFields) :
    ∀ (r a : Nat) (s : List Nat),
      (pollLoopAux poll r a s).found = none →
        (pollLoopAux poll r a s).attemptsCtr = a + r := by
  intro r
  induction r with
  | zero =>
    intro a s _
    rfl
  | succ n ih =>
    intro a s h
    cases hp : poll a with
    | some d =>
      rw [pollLoopAux_succ_some poll n a s d hp] at h
      exact absurd h (by simp)
    | none =>
      rw [pollLoopAux_succ_none poll n a s hp] at h ⊢
      split at h <;> rename_i hlt
      · rw [if_pos hlt]
        rw [ih (a + 1) (s ++ [POLL_WAIT_SECS]) h]
        omega
      · rw [if_neg hlt]
        rw [ih (a + 1) s h]
        omega

/-- The loop's counter never passes the end of its window. -/
theorem pollLoopAux_ctr_le (poll : Nat → Option UtxoFields) :
    ∀ (r a : Nat) (s : List Nat),
      (pollLoopAux poll r a s).attemptsCtr ≤ a + r := by
  intro r
  induction r with
  | zero =>
    intro a s
    exact Nat.le_refl a
  | succ n ih =>
    intro a s
    cases hp : poll a with
    | some d =>
      rw [pollLoopAux_succ_some poll n a s d hp]
      show a ≤ a + (n + 1)
      omega
    | none =>
      rw [pollLoopAux_succ_none poll n a s hp]
      split
      · have := ih (a + 1) (s ++ [POLL_WAIT_SECS])
        omega
      · have := ih (a + 1) s
        omega

/-- The full loop finds nothing exactly when all 20 polls come back
unusable. -/
theorem pollLoop_found_none_iff (poll : Nat → Option UtxoFields) :
    (pollLoop poll).found = none ↔
      ∀ i, i < MAX_ATTEMPTS → poll i = none := by
  unfold pollLoop
  rw [pollLoopAux_found_none_iff]
  constructor
  · intro h i hi
    exact h i (Nat.zero_le i) (by omega)
  · intro h i _ hi
    exact h i (by omega)

/-- The field validation only ever fails with the extraction error. -/
theorem validateFields_error (u : UtxoFields) (e : ResolveError)
    (h : validateFields u = .error e) : e = .extractFailed := by
  unfold validateFields at h
  split at h
  · injection h with h1
    exact h1.symm
  · exact absurd h (by simp)

/-- Claim C7: every wait of the resolver is the fixed 5-second interval;
the attempt counter never exceeds the 20-attempt bound; the fallback
indexer is consulted exactly when all 20 polls fail, and only after the
full 20 attempts; the fetch-failure (not-found) error arises exactly when
both the polling is exhausted and the fallback fails; and when the polls
are exhausted but the fallback returns a valid output, the resolver
succeeds through the fallback path with that output's script, asset and
value. -/
theorem utxo_resolver (poll : Nat → Option UtxoFields)
    (fallback : Option UtxoFields) (r : ResolveResult)
    (hr : r = resolveUtxo poll fallback) :
    (∀ w ∈ r.sleeps, w = POLL_WAIT_SECS) ∧
    r.attemptsCtr ≤ MAX_ATTEMPTS ∧
    (r.fallbackUsed = true ↔ ∀ i, i < MAX_ATTEMPTS → poll i = none) ∧
    (r.fallbackUsed = true → r.attemptsCtr = MAX_ATTEMPTS) ∧
    (r.outcome = .error .fetchFailed ↔
      ((∀ i, i < MAX_ATTEMPTS → poll i = none) ∧ fallback = none)) ∧
    (∀ u, fallback = some u → validateFields u = .ok u →
      (∀ i, i < MAX_ATTEMPTS → poll i = none) →
      r.outcome = .ok (u, .fallbackIndexer)) := by
  subst hr
  have hsleep : ∀ x ∈ (pollLoop poll).sleeps, x = POLL_WAIT_SECS := by
    intro x hx
    rcases pollLoopAux_sleeps poll MAX_ATTEMPTS 0 [] x hx with h | h
    · exact absurd h (List.not_mem_nil x)
    · exact h
  have hctr : (pollLoop poll).attemptsCtr ≤ MAX_ATTEMPTS := by
    have h := pollLoopAux_ctr_le poll MAX_ATTEMPTS 0 []
    unfold pollLoop
    omega
  unfold resolveUtxo
  simp only []
  cases hfound : (pollLoop poll).found with
  | some d =>
    dsimp only
    have hnotall : ¬ (∀ i, i < MAX_ATTEMPTS → poll i = none) := by
      intro hall
      have h := (pollLoop_found_none_iff poll).mpr hall
      rw [hfound] at h
      exact Option.noConfusion h
    cases hval : validateFields d with
    | ok u =>
      dsimp only
      refine ⟨hsleep, hctr, ?_, ?_, ?_, ?_⟩
      · exact iff_of_false (by simp) hnotall
      · intro h
        exact absurd h (by simp)
      · exact iff_of_false (by simp) (fun h => hnotall h.1)
      · intro u' _ _ hall
        exact absurd hall hnotall
    | error e =>
      dsimp only
      refine ⟨hsleep, hctr, ?_, ?_, ?_, ?_⟩
      · exact iff_of_false (by simp) hnotall
      · intro h
        exact absurd h (by simp)
      · constructor
        · intro h
          injection h with h1
          rw [validateFields_error d e hval] at h1
          exact ResolveError.noConfusion h1
        · intro h
          exact absurd h.1 hnotall
      · intro u' _ _ hall
        exact absurd hall hnotall
  | none =>
    dsimp only
    have hall : ∀ i, i < MAX_ATTEMPTS → poll i = none :=
      (pollLoop_found_none_iff poll).mp hfound
    have hctr20 : (pollLoop poll).attemptsCtr = MAX_ATTEMPTS := by
      have h := pollLoopAux_exhaust_ctr poll MAX_ATTEMPTS 0 [] hfound
      unfold pollLoop
      omega
    cases fallback with
    | none =>
      dsimp only
      refine ⟨hsleep, hctr, iff_of_true rfl hall, fun _ => hctr20, ?_, ?_⟩
      · exact iff_of_true rfl ⟨hall, rfl⟩
      · intro u hfb
        exact absurd hfb (by simp)
    | some u =>
      dsimp only
      cases hval : validateFields u with
      | ok u' =>
        dsimp only
        refine ⟨hsleep, hctr, iff_of_true rfl hall, fun _ => hctr20, ?_, ?_⟩
        · exact iff_of_false (by simp) (fun h => Option.noConfusion h.2)
        · intro u'' hfb hv _
          injection hfb with hfb
          subst hfb
          rw [hval] at hv
          injection hv with hv
          rw [hv]
      | error e =>
        dsimp only
        refine ⟨hsleep, hctr, iff_of_true rfl hall, fun _ => hctr20, ?_, ?_⟩
        · constructor
          · intro h
            injection h with h1
            rw [validateFields_error u e hval] at h1
            exact ResolveError.noConfusion h1
          · intro h
            exact absurd h.2 (by simp)
        · intro u'' hfb hv _
          injection hfb with hfb
          subst hfb
          rw [hval] at hv
          exact Except.noConfusion hv

/-- Claim C7, witness: with a node that never sees the output and a
fallback indexer returning (script "s", asset "a", 5 sats), the resolver
uses the fallback after the full 20 attempts and succeeds via the
fallback path. -/
theorem utxo_resolver_witness :
    (resolveUtxo (fun _ => none) (some { script := "s", asset := "a", valueSats := 5 })).fallbackUsed
        = true ∧
    (resolveUtxo (fun _ => none) (some { script := "s", asset := "a", valueSats := 5 })).attemptsCtr
        = MAX_ATTEMPTS ∧
    (resolveUtxo (fun _ => none) (some { script := "s", asset := "a", valueSats := 5 })).outcome
        = .ok ({ script := "s", asset := "a", valueSats := 5 }, .fallbackIndexer) := by
  have h := utxo_resolver (fun _ => none)
    (some { script := "s", asset := "a", valueSats := 5 }) _ rfl
  have hall : ∀ i, i < MAX_ATTEMPTS → (fun _ : Nat => (none : Option UtxoFields)) i = none :=
    fun i _ => rfl
  have hfb := h.2.2.1.mpr hall
  exact ⟨hfb, h.2.2.2.1 hfb,
    h.2.2.2.2.2 { script := "s", asset := "a", valueSats := 5 } rfl rfl hall⟩

/-! ## Claim C8: preservation of external diagnostics

The finalize-path error strings of `HalWrapper::finalize_pset_with_witness`
(`hal_wrapper.rs` lines 795-824) and `ElementsRPC::finalize_pset`
(`elements_rpc.rs` lines 495-519): a failed tool invocation is reported
with the tool's stderr and stdout interpolated into the message, plus a
troubleshooting suffix selected by substring checks on stderr. -/

/-- Verbatim-substring relation on strings. -/
def SubstrOf (needle hay : String) : Prop :=
  ∃ pre post, hay = pre ++ (needle ++ post)

/-- Byte-level contiguous-occurrence check, modelling Rust
`str::contains`. -/
def containsSeg : List Char → List Char → Bool
  | _, [] => true
  | [], _ :: _ => false
  | h :: t, n :: m => List.isPrefixOf (n :: m) (h :: t) || containsSeg t (n :: m)

/-- String wrapper of the occurrence check. -/
def strContains (hay needle : String) : Bool :=
  containsSeg hay.data needle.data

theorem strAppend_assoc (a b c : String) : (a ++ b) ++ c = a ++ (b ++ c) := by
  cases a with
  | mk la =>
    cases b with
    | mk lb =>
      cases c with
      | mk lc =>
        show String.mk ((la ++ lb) ++ lc) = String.mk (la ++ (lb ++ lc))
        rw [List.append_assoc]

theorem strAppend_empty (a : String) : a ++ "" = a := by
  cases a with
  | mk la =>
    show String.mk (la ++ []) = String.mk la
    rw [List.append_nil]

theorem substrOf_here (n pre post : String) : SubstrOf n (pre ++ (n ++ post)) :=
  ⟨pre, post, rfl⟩

theorem substrOf_end (n pre : String) : SubstrOf n (pre ++ n) :=
  ⟨pre, "", by rw [strAppend_empty]⟩

theorem substrOf_left (n a b : String) (h : SubstrOf n b) : SubstrOf n (a ++ b) := by
  obtain ⟨p, q, hpq⟩ := h
  exact ⟨a ++ p, q, by rw [hpq, strAppend_assoc]⟩

theorem substrOf_right (n a b : String) (h : SubstrOf n a) : SubstrOf n (a ++ b) := by
  obtain ⟨p, q, hpq⟩ := h
  refine ⟨p, q ++ b, ?_⟩
  rw [hpq, strAppend_assoc, strAppend_assoc]

/-- The unconditional part of the hal finalize failure message
(`hal_wrapper.rs` lines 800-803), with stderr and stdout interpolated. -/
def halFinalizeBase (exitCode : Int) (inputIndex : Nat)
    (psetPreview programPreview stderr stdout : String) : String :=
  "hal-simplicity pset finalize failed with exit code " ++ (toString exitCode ++
    ("\n\nCommand: hal-simplicity simplicity pset finalize <pset> " ++
      (toString inputIndex ++ (" <program> <witness>\nPSET (first 100 chars): " ++
        (psetPreview ++ ("\nProgram (first 100 chars): " ++ (programPreview ++
          ("\n\nStderr:\n" ++ (stderr ++ ("\n\nStdout:\n" ++ stdout))))))))))

/-- Troubleshooting appendix for stderr containing "invalid"/"Invalid"
(`hal_wrapper.rs` lines 806-811). -/
def halInvalidTrouble : String :=
  "\n\nInvalid input detected:\n1. Verify the PSET is valid and properly updated\n2. Check that the program and witness are valid base64\n3. Ensure all signatures are present in the witness\n4. Verify the program matches the contract CMR\n"

/-- Troubleshooting appendix for stderr containing "witness"/"signature"
(`hal_wrapper.rs` lines 812-816). -/
def halWitnessTrouble : String :=
  "\n\nWitness/Signature error detected:\n1. Check that all required signatures are present\n2. Verify signatures are correctly formatted\n3. Ensure witness file matches the contract requirements\n"

/-- Troubleshooting appendix for stderr containing "parse"/"JSON"
(`hal_wrapper.rs` lines 817-821). -/
def halParseTrouble : String :=
  "\n\nParse error detected:\n1. Check that hal-simplicity output is valid JSON\n2. Verify hal-simplicity version is compatible\n"

/-- The full error string returned when the hal finalize invocation exits
unsuccessfully (`hal_wrapper.rs` lines 795-824). -/
def halFinalizeErrorDetails (exitCode : Int) (inputIndex : Nat)
    (psetPreview programPreview stderr stdout : String) : String :=
  let base := halFinalizeBase exitCode inputIndex psetPreview programPreview stderr stdout
  if strContains stderr "invalid" || strContains stderr "Invalid" then
    base ++ halInvalidTrouble
  else if strContains stderr "witness" || strContains stderr "signature" then
    base ++ halWitnessTrouble
  else if strContains stderr "parse" || strContains stderr "JSON" then
    base ++ halParseTrouble
  else
    base

/-- The unconditional part of the elements finalizepsbt failure message
(`elements_rpc.rs` lines 501-504). -/
def elementsFinalizeBase (cmd : String) (exitCode : Int)
    (psetPreview stderr stdout : String) : String :=
  cmd ++ (" finalizepsbt failed with exit code " ++ (toString exitCode ++
    ("\n\nCommand: " ++ (cmd ++ (" finalizepsbt\nPSET (first 200 chars): " ++
      (psetPreview ++ ("...\n\nStderr:\n" ++ (stderr ++
        ("\n\nStdout:\n" ++ stdout)))))))))

/-- Troubleshooting appendix for stderr containing "not final"/"incomplete"
(`elements_rpc.rs` lines 507-511). -/
def elementsNotFinalTrouble : String :=
  "\n\nPSET is not fully signed:\n1. Make sure all required signatures are present\n2. Verify that all participants have signed the PSET\n3. Check that the witness data is complete\n"

/-- Troubleshooting appendix for stderr containing "Invalid"/"invalid"
(`elements_rpc.rs` lines 512-516). -/
def elementsInvalidTrouble : String :=
  "\n\nInvalid PSET detected:\n1. Verify the PSET format is correct (base64)\n2. Make sure the PSET hasn\u0027t been corrupted\n3. Try recreating the PSET from scratch\n"

/-- The full error string returned when elements finalizepsbt exits
unsuccessfully (`elements_rpc.rs` lines 495-519). -/
def elementsFinalizeErrorDetails (cmd : String) (exitCode : Int)
    (psetPreview stderr stdout : String) : String :=
  let base := elementsFinalizeBase cmd exitCode psetPreview stderr stdout
  if strContains stderr "not final" || strContains stderr "incomplete" then
    base ++ elementsNotFinalTrouble
  else if strContains stderr "Invalid" || strContains stderr "invalid" then
    base ++ elementsInvalidTrouble
  else
    base

theorem hal_stderr_in_base (exitCode : Int) (inputIndex : Nat)
    (psetPreview programPreview stderr stdout : String) :
    SubstrOf stderr
      (halFinalizeBase exitCode inputIndex psetPreview programPreview stderr stdout) := by
  unfold halFinalizeBase
  exact substrOf_left _ _ _ (substrOf_left _ _ _ (substrOf_left _ _ _
    (substrOf_left _ _ _ (substrOf_left _ _ _ (substrOf_left _ _ _
      (substrOf_left _ _ _ (substrOf_left _ _ _ (substrOf_here _ _ _))))))))

theorem hal_stdout_in_base (exitCode : Int) (inputIndex : Nat)
    (psetPreview programPreview stderr stdout : String) :
    SubstrOf stdout
      (halFinalizeBase exitCode inputIndex psetPreview programPreview stderr stdout) := by
  unfold halFinalizeBase
  exact substrOf_left _ _ _ (substrOf_left _ _ _ (substrOf_left _ _ _
    (substrOf_left _ _ _ (substrOf_left _ _ _ (substrOf_left _ _ _
      (substrOf_left _ _ _ (substrOf_left _ _ _ (substrOf_left _ _ _
        (substrOf_left _ _ _ (substrOf_end _ _))))))))))

theorem elements_stderr_in_base (cmd : String) (exitCode : Int)
    (psetPreview stderr stdout : String) :
    SubstrOf stderr (elementsFinalizeBase cmd exitCode psetPreview stderr stdout) := by
  unfold elementsFinalizeBase
  exact substrOf_left _ _ _ (substrOf_left _ _ _ (substrOf_left _ _ _
    (substrOf_left _ _ _ (substrOf_left _ _ _ (substrOf_left _ _ _
      (substrOf_left _ _ _ (substrOf_here _ _ _)))))))

theorem elements_stdout_in_base (cmd : String) (exitCode : Int)
    (psetPreview stderr stdout : String) :
    SubstrOf stdout (elementsFinalizeBase cmd exitCode psetPreview stderr stdout) := by
  unfold elementsFinalizeBase
  exact substrOf_left _ _ _ (substrOf_left _ _ _ (substrOf_left _ _ _
    (substrOf_left _ _ _ (substrOf_left _ _ _ (substrOf_left _ _ _
      (substrOf_left _ _ _ (substrOf_left _ _ _ (substrOf_left _ _ _
        (substrOf_end _ _)))))))))

/-- Claim C8: whatever the failing invocation's diagnostics and whatever
troubleshooting appendix the code selects, the caller-facing error string
of the covenant-toolchain PSET finalize and of the ledger-node finalize
contains the tool's stderr verbatim, and its stdout verbatim. -/
theorem finalize_diagnostics_preserved (exitCode : Int) (inputIndex : Nat)
    (psetPreview programPreview stderr stdout cmd psetPreview2 : String) :
    SubstrOf stderr
      (halFinalizeErrorDetails exitCode inputIndex psetPreview programPreview stderr stdout) ∧
    SubstrOf stdout
      (halFinalizeErrorDetails exitCode inputIndex psetPreview programPreview stderr stdout) ∧
    SubstrOf stderr
      (elementsFinalizeErrorDetails cmd exitCode psetPreview2 stderr stdout) ∧
    SubstrOf stdout
      (elementsFinalizeErrorDetails cmd exitCode psetPreview2 stderr stdout) := by
  refine ⟨?_, ?_, ?_, ?_⟩
  · unfold halFinalizeErrorDetails
    split
    · exact substrOf_right _ _ _ (hal_stderr_in_base _ _ _ _ _ _)
    · split
      · exact substrOf_right _ _ _ (hal_stderr_in_base _ _ _ _ _ _)
      · split
        · exact substrOf_right _ _ _ (hal_stderr_in_base _ _ _ _ _ _)
        · exact hal_stderr_in_base _ _ _ _ _ _
  · unfold halFinalizeErrorDetails
    split
    · exact substrOf_right _ _ _ (hal_stdout_in_base _ _ _ _ _ _)
    · split
      · exact substrOf_right _ _ _ (hal_stdout_in_base _ _ _ _ _ _)
      · split
        · exact substrOf_right _ _ _ (hal_stdout_in_base _ _ _ _ _ _)
        · exact hal_stdout_in_base _ _ _ _ _ _
  · unfold elementsFinalizeErrorDetails
    split
    · exact substrOf_right _ _ _ (elements_stderr_in_base _ _ _ _ _)
    · split
      · exact substrOf_right _ _ _ (elements_stderr_in_base _ _ _ _ _)
      · exact elements_stderr_in_base _ _ _ _ _
  · unfold elementsFinalizeErrorDetails
    split
    · exact substrOf_right _ _ _ (elements_stdout_in_base _ _ _ _ _)
    · split
      · exact substrOf_right _ _ _ (elements_stdout_in_base _ _ _ _ _)
      · exact elements_stdout_in_base _ _ _ _ _

/-! ## Claim C10: the change helper -/

/-- Claim C10: the change helper returns
`max(input_amount - sum(outputs) - fee, 0)`; in particular it never
returns a negative value and silently clamps a deficit to zero instead of
reporting an error. -/
theorem calculate_change_clamps (inputAmount : ℚ) (outputs : List TxOutput)
    (fee : ℚ) :
    calculate_change inputAmount outputs fee
      = max (inputAmount - (outputs.map (fun o => o.amount)).sum - fee) 0 ∧
    0 ≤ calculate_change inputAmount outputs fee ∧
    (inputAmount - (outputs.map (fun o => o.amount)).sum - fee < 0 →
      calculate_change inputAmount outputs fee = 0) := by
  refine ⟨rfl, le_max_right _ _, ?_⟩
  intro h
  unfold calculate_change
  exact max_eq_right (le_of_lt h)

/-- Claim C10, witness: input 1, a single output of 2 and fee 3 are in
deficit, and the helper clamps the change to zero. -/
theorem calculate_change_clamps_witness :
    calculate_change 1 [ { address := "a", amount := 2 } ] 3 = 0 := by
  apply (calculate_change_clamps 1 [ { address := "a", amount := 2 } ] 3).2.2
  norm_num

end Partnerfy
